import Mathlib

/-!
Verification development for the psi_detector protocol-detection engine.

The Rust sources are shallowly embedded: byte buffers become `List Nat`
(each entry an octet value), `f32` confidences become `ℚ` (every constant
in the source is a short decimal, and every comparison the claims depend
on is at identical literals, so rational arithmetic decides them the same
way IEEE `f32` does), fallible functions return `Option`/`Except`, and
trait objects (`dyn ProtocolProbe`) become records of Lean functions.
Logging is not modelled.  Wall-clock time is modelled at two levels: the
time-free `detect`/`DetectionResult` drop the loop's timeout checks and
the measured `detection_time` field (sound for properties that hold of
every run, such as the confidence gate), while the timed
`detectT`/`DetectionResultT` keep both, taking the sequence of
`Instant::elapsed()` readings of an invocation as an explicit clock
stream (`Duration` as nanoseconds in `Nat`) — two invocations of the
Rust `detect` are two clock streams, so run-to-run (non-)determinism is
expressible.  `ProtocolInfo`'s `version`/`features`/`metadata`
bookkeeping fields, which no property below inspects, are omitted.
-/

namespace PsiDetector

/-- Protocol types, from src/core/protocol.rs (together with the extra
variants `FTP`, `SMTP`, `DNS`, `Redis`, `MySQL`, `UDP`, `Custom` that
src/core/magic.rs, src/probe/passive.rs and the SIMD module refer to). -/
inductive ProtocolType where
  | HTTP1_0
  | HTTP1_1
  | HTTP2
  | HTTP3
  | GRPC
  | WebSocket
  | QUIC
  | MQTT
  | TCP
  | TLS
  | SSH
  | FTP
  | SMTP
  | DNS
  | Redis
  | MySQL
  | UDP
  | Custom
  | Unknown
deriving DecidableEq, Repr

/-- Rational addition written through `mkRat` so that concrete runs of the
model reduce inside the kernel (the Batteries `Rat.add` behind `+` is
`@[irreducible]`); `qadd_eq` below proves it is ordinary addition. -/
def qadd (a b : ℚ) : ℚ :=
  mkRat (a.num * b.den + b.num * a.den) (a.den * b.den)

/-- Rational multiplication through `mkRat`; `qmul_eq` below proves it is
ordinary multiplication. -/
def qmul (a b : ℚ) : ℚ :=
  mkRat (a.num * b.num) (a.den * b.den)

/-- Computable minimum on `ℚ`; `qmin_eq` below proves it is `min`. -/
def qmin (a b : ℚ) : ℚ :=
  if a ≤ b then a else b

/-- Computable maximum on `ℚ`; `qmax_eq` below proves it is `max`. -/
def qmax (a b : ℚ) : ℚ :=
  if a ≤ b then b else a

/-- Bit 7 of a byte: the `b & 0x80 != 0` test of the Rust source. -/
def bit7 (b : Nat) : Bool :=
  b / 128 % 2 = 1

/-- Candidate classification, from `ProtocolInfo` in src/core/protocol.rs
(version, features and metadata omitted; no modelled operation reads them). -/
structure ProtocolInfo where
  protocol_type : ProtocolType
  confidence : ℚ
deriving DecidableEq, Repr

/-- Mirror of `ProtocolInfo::new`, which clamps the confidence to [0, 1]. -/
def ProtocolInfo.new (p : ProtocolType) (c : ℚ) : ProtocolInfo :=
  { protocol_type := p, confidence := qmax 0 (qmin c 1) }

/-- Byte access `data[i]`; every use in the embedded code is guarded by a
length check exactly as in the Rust source, so the default is never read. -/
def bget (data : List Nat) (i : Nat) : Nat :=
  data.getD i 0

/-- Mirror of `u32::from_be_bytes` on four octets. -/
def u32be (a b c d : Nat) : Nat :=
  ((a * 256 + b) * 256 + c) * 256 + d

/-- Mirror of `u16::from_be_bytes` on two octets. -/
def u16be (a b : Nat) : Nat :=
  a * 256 + b

/-- ASCII byte list of a string literal. -/
def strBytes (s : String) : List Nat :=
  s.data.map Char.toNat

/-- Occurrence of `needle` as a contiguous run inside the list: the search
both `PassiveProbe::fast_search` paths implement (the sliding-window path
for needles of at most 4 bytes and the last-byte skip loop above that; the
iteration cap of twice the haystack length in the long path never binds,
since the index advances by one per iteration). -/
def infixAux (needle : List Nat) : List Nat → Bool
  | [] => needle.isEmpty
  | h :: t => needle.isPrefixOf (h :: t) || infixAux needle t

/-- Mirror of `PassiveProbe::fast_search` (src/probe/passive.rs): an empty
needle or a haystack shorter than the needle never matches. -/
def fastSearch (haystack needle : List Nat) : Bool :=
  !needle.isEmpty && infixAux needle haystack

/-- Mirror of `PassiveProbe::detect_http1` (src/probe/passive.rs lines 41-60). -/
def detect_http1 (data : List Nat) : Option ℚ :=
  if data.length < 8 then none
  else if (strBytes "GET ").isPrefixOf data
       || (strBytes "POST").isPrefixOf data
       || (strBytes "PUT ").isPrefixOf data
       || (strBytes "HEAD").isPrefixOf data
       || (strBytes "DELE").isPrefixOf data then some (mkRat 9 10)
  else if (strBytes "HTTP/1.").isPrefixOf data then some (mkRat 95 100)
  else none

/-- The 24-byte HTTP/2 connection preface. -/
def http2Preface : List Nat :=
  strBytes "PRI * HTTP/2.0\r\n\r\nSM\r\n\r\n"

/-- Mirror of `PassiveProbe::detect_http2` (src/probe/passive.rs lines 63-84). -/
def detect_http2 (data : List Nat) : Option ℚ :=
  if data.length < 24 then none
  else if http2Preface.isPrefixOf data then some 1
  else if 9 ≤ data.length then
    (if bget data 3 = 4 ∨ bget data 3 = 1 then some (mkRat 8 10) else none)
  else none

/-- Mirror of `PassiveProbe::detect_quic` (src/probe/passive.rs lines 87-109). -/
def detect_quic (data : List Nat) : Option ℚ :=
  if data.length < 16 then none
  else if bit7 (bget data 0) then
    (if u32be (bget data 1) (bget data 2) (bget data 3) (bget data 4) = 1 then
       some (mkRat 95 100)
     else if u32be (bget data 1) (bget data 2) (bget data 3) (bget data 4) = 4278190109 then
       some (mkRat 9 10)
     else if u32be (bget data 1) (bget data 2) (bget data 3) (bget data 4) = 0 then
       some (mkRat 7 10)
     else none)
  else none

/-- Known HTTP/3 frame type bytes checked by `detect_http3`. -/
def isH3FrameType (b : Nat) : Bool :=
  b = 0 || b = 1 || b = 4 || b = 5 || b = 7 || b = 13 || b = 14

/-- Frame-position scan of `detect_http3`: the first in-range position with a
known HTTP/3 frame type adds the boost once. -/
def h3FramePosHit (data : List Nat) : Bool :=
  [16, 20, 24, 28, 32, 36, 40, 44, 48, 52].any fun pos =>
    decide (pos < data.length) && isH3FrameType (bget data pos)

/-- The `http3_confidence` accumulator of `detect_http3` after the ALPN
string check (+0.5). -/
def http3C1 (data : List Nat) : ℚ :=
  if fastSearch data (strBytes "h3") || fastSearch data (strBytes "h3-") then mkRat 5 10
  else 0

/-- The accumulator after the frame-position check (+0.4). -/
def http3C2 (data : List Nat) : ℚ :=
  if 20 ≤ data.length ∧ h3FramePosHit data then qadd (http3C1 data) (mkRat 4 10)
  else http3C1 data

/-- The accumulator after the QPACK setting check (+0.3). -/
def http3C3 (data : List Nat) : ℚ :=
  if fastSearch data [1, 64] || fastSearch data [6, 64] then qadd (http3C2 data) (mkRat 3 10)
  else http3C2 data

/-- Mirror of `PassiveProbe::detect_http3` (src/probe/passive.rs lines
112-157); the `http3_confidence` accumulator is split into `http3C1`,
`http3C2`, `http3C3` above. -/
def detect_http3 (data : List Nat) : Option ℚ :=
  match detect_quic data with
  | none => none
  | some qc =>
    if qc > mkRat 7 10 then
      (if http3C3 data ≥ mkRat 4 10 then some (qmin (qadd qc (http3C3 data)) (mkRat 95 100))
       else some (qmul qc (mkRat 6 10)))
    else none

/-- Frame-position scan of `detect_grpc`: positions 0, 24 and 33, requiring
nine bytes of room, frame-type byte at most 0x08; the boost is added once. -/
def grpcFramePosHit (data : List Nat) : Bool :=
  [0, 24, 33].any fun pos =>
    decide (pos + 9 ≤ data.length) && decide (bget data (pos + 3) ≤ 8)

/-- The `confidence` accumulator of `detect_grpc` after the preface check
(+0.4). -/
def grpcC1 (data : List Nat) : ℚ :=
  if 24 ≤ data.length ∧ http2Preface.isPrefixOf data = true then mkRat 4 10 else 0

/-- The accumulator after the content search (+0.5). -/
def grpcC2 (data : List Nat) : ℚ :=
  if fastSearch data (strBytes "application/grpc") then qadd (grpcC1 data) (mkRat 5 10)
  else grpcC1 data

/-- The accumulator after the frame-position check (+0.3). -/
def grpcC3 (data : List Nat) : ℚ :=
  if 9 ≤ data.length ∧ grpcFramePosHit data then qadd (grpcC2 data) (mkRat 3 10)
  else grpcC2 data

/-- The accumulator after the high-score bump (a score of at least 0.8 is
raised to at least 0.9). -/
def grpcC4 (data : List Nat) : ℚ :=
  if grpcC3 data ≥ mkRat 8 10 then qmax (grpcC3 data) (mkRat 9 10) else grpcC3 data

/-- Mirror of `PassiveProbe::detect_grpc` (src/probe/passive.rs lines
160-208); the `confidence` accumulator is split into `grpcC1` to `grpcC4`
above. -/
def detect_grpc (data : List Nat) : Option ℚ :=
  if data.length < 16 then none
  else if grpcC4 data > mkRat 5 10 then some (grpcC4 data)
  else none

/-- The `is_http_like` test of `detect_websocket`. -/
def wsIsHttpLike (data : List Nat) : Bool :=
  fastSearch data (strBytes "HTTP/")
    || fastSearch data (strBytes "GET ")
    || fastSearch data (strBytes "POST ")

/-- Mirror of `PassiveProbe::detect_websocket` (src/probe/passive.rs lines
245-294); `opcode`, `masked` and `payload_len` are inlined. -/
def detect_websocket (data : List Nat) : Option ℚ :=
  if data.length < 20 then none
  else if wsIsHttpLike data then
    (if fastSearch data (strBytes "Upgrade: websocket")
        || fastSearch data (strBytes "upgrade: websocket") then
       (if fastSearch data (strBytes "HTTP/1.1 101") then some (mkRat 98 100)
        else some (mkRat 75 100))
     else none)
  else if (bget data 0 % 16 ≤ 2 ∨ (8 ≤ bget data 0 % 16 ∧ bget data 0 % 16 ≤ 10))
      ∧ bget data 1 % 128 ≤ 125 then
    (if (if bit7 (bget data 1) then 6 else 2) ≤ data.length then some (mkRat 6 10)
     else none)
  else none

/-- Mirror of `PassiveProbe::detect_tls` (src/probe/passive.rs lines
297-329); `content_type` and the validity flags are inlined. -/
def detect_tls (data : List Nat) : Option ℚ :=
  if data.length < 5 then none
  else if (bget data 0 = 20 ∨ bget data 0 = 21 ∨ bget data 0 = 22 ∨ bget data 0 = 23)
      ∧ (bget data 1 = 3 ∧ bget data 2 ≤ 4) then
    (if bget data 0 = 22 then some (mkRat 95 100) else some (mkRat 8 10))
  else none

/-- Mirror of `PassiveProbe::detect_ssh` (src/probe/passive.rs lines 332-370). -/
def detect_ssh (data : List Nat) : Option ℚ :=
  if data.length < 4 then none
  else if (strBytes "SSH-2.0").isPrefixOf data then some (mkRat 98 100)
  else if (strBytes "SSH-1.").isPrefixOf data then some (mkRat 95 100)
  else if (strBytes "SSH-").isPrefixOf data then some (mkRat 9 10)
  else if 6 ≤ data.length then
    (if 0 < u32be (bget data 0) (bget data 1) (bget data 2) (bget data 3)
        ∧ u32be (bget data 0) (bget data 1) (bget data 2) (bget data 3) < 65536
        ∧ u32be (bget data 0) (bget data 1) (bget data 2) (bget data 3) ≤ data.length - 4 then
      (if bget data 4 < 255 then some (mkRat 6 10) else none)
    else none)
  else none

/-- One slot of the stack-allocated detections array of `PassiveProbe::probe`. -/
def mkDet (p : ProtocolType) : Option ℚ → List (ProtocolType × ℚ)
  | some c => [(p, c)]
  | none => []

/-- The detections collected by `PassiveProbe::probe`, in its fixed priority
order (src/probe/passive.rs lines 490-527). -/
def passiveDetections (data : List Nat) : List (ProtocolType × ℚ) :=
  mkDet .HTTP3 (detect_http3 data)
    ++ mkDet .QUIC (detect_quic data)
    ++ mkDet .HTTP2 (detect_http2 data)
    ++ mkDet .GRPC (detect_grpc data)
    ++ mkDet .HTTP1_1 (detect_http1 data)
    ++ mkDet .TLS (detect_tls data)
    ++ mkDet .SSH (detect_ssh data)
    ++ mkDet .WebSocket (detect_websocket data)

/-- The best-match loop of `PassiveProbe::probe`: starts from
`(Unknown, 0.0)` and replaces the best candidate on strictly greater
confidence. -/
def bestDetection (l : List (ProtocolType × ℚ)) : ProtocolType × ℚ :=
  l.foldl (fun best pc => if pc.2 > best.2 then pc else best) (.Unknown, 0)

/-- Mirror of the `ProtocolProbe` implementation `PassiveProbe::probe`
(src/probe/passive.rs lines 482-545); `minDataSize` and `threshold` are the
`min_data_size` and `confidence_threshold` fields (defaults 16 and 0.7). -/
def PassiveProbe.probe (minDataSize : Nat) (threshold : ℚ) (data : List Nat) :
    Option ProtocolInfo :=
  if data.length < minDataSize then none
  else if (bestDetection (passiveDetections data)).2 ≥ threshold then
    some (ProtocolInfo.new (bestDetection (passiveDetections data)).1
      (bestDetection (passiveDetections data)).2)
  else none

/-- Mirror of `PassiveProbe::supported_protocols` (src/probe/passive.rs). -/
def passiveSupportedProtocols : List ProtocolType :=
  [.HTTP1_1, .HTTP2, .HTTP3, .QUIC, .GRPC, .WebSocket, .TLS, .SSH, .UDP]

/-- Probe strategy, from src/core/probe.rs. -/
inductive ProbeStrategy where
  | Passive
  | Active
  | Hybrid
  | Adaptive
deriving DecidableEq, Repr

/-- Probe configuration, from `ProbeConfig` in src/core/probe.rs
(`max_probe_time` is a wall-clock duration and is not modelled). -/
structure ProbeConfig where
  strategy : ProbeStrategy
  min_confidence : ℚ
  enable_simd : Bool
  enable_heuristic : Bool
  buffer_size : Nat
deriving DecidableEq, Repr

/-- Mirror of `ProbeConfig::default`. -/
def ProbeConfig.default : ProbeConfig :=
  { strategy := .Passive
    min_confidence := mkRat 8 10
    enable_simd := true
    enable_heuristic := true
    buffer_size := 4096 }

/-- Detection configuration, from `DetectionConfig` in src/core/detector.rs
(the `timeout` duration is carried separately, as the `tmo` nanosecond
argument of the timed `detectT` below; the time-free `detect` has no use
for it). -/
structure DetectionConfig where
  min_confidence : ℚ
  enable_heuristic : Bool
  enable_active_probing : Bool
  max_probe_size : Nat
  min_probe_size : Nat
  enable_simd : Bool
deriving DecidableEq, Repr

/-- Mirror of `DetectionConfig::default`. -/
def DetectionConfig.default : DetectionConfig :=
  { min_confidence := mkRat 7 10
    enable_heuristic := true
    enable_active_probing := false
    max_probe_size := 4096
    min_probe_size := 16
    enable_simd := true }

/-- Detection method tag, from src/core/detector.rs. -/
inductive DetectionMethod where
  | Passive
  | Active
  | Heuristic
  | SimdAccelerated
  | Hybrid
deriving DecidableEq, Repr

/-- Time-free engine verdict: `DetectionResult` from src/core/detector.rs
without the measured `detection_time` field (`DetectionResultT` below
keeps it). -/
structure DetectionResult where
  protocol_info : ProtocolInfo
  detection_method : DetectionMethod
  detector_name : String
deriving DecidableEq, Repr

/-- Mirror of `DetectionResult::confidence`. -/
def DetectionResult.confidence (r : DetectionResult) : ℚ :=
  r.protocol_info.confidence

/-- Errors surfaced by `detect`, from src/error.rs; the formatted message
strings are abstracted to the numbers interpolated into them. -/
inductive DetectorError where
  | InsufficientData (needed got : Nat)
  | DataTooLarge (got limit : Nat)
  | NoProtocolDetected
deriving DecidableEq, Repr

/-- Decidable equality for `Except` values, so concrete runs of the engine
can be checked by evaluation. -/
instance {ε α : Type} [DecidableEq ε] [DecidableEq α] : DecidableEq (Except ε α) := fun a b =>
  match a, b with
  | .error e, .error f =>
    if h : e = f then .isTrue (by rw [h]) else .isFalse (by simp [h])
  | .error _, .ok _ => .isFalse (by simp)
  | .ok _, .error _ => .isFalse (by simp)
  | .ok x, .ok y =>
    if h : x = y then .isTrue (by rw [h]) else .isFalse (by simp [h])

/-- A registered probe instance: the shallow embedding of a
`Box<dyn ProtocolProbe>` trait object (src/core/probe.rs lines 104-123).
`id` identifies the instance (Rust distinguishes instances by address);
`run` is the pure effect of `probe` (a probe error is logged and skipped by
the engine exactly like an `Ok(None)`, so both are `none` here, and the
`ProbeContext` candidate bookkeeping, which the engine never reads for its
verdict, is dropped). -/
structure Probe where
  id : Nat
  supported : List ProtocolType
  priority : Nat
  needsMore : List Nat → Bool
  run : List Nat → Option ProtocolInfo

/-- Stable insertion of `x` after all entries whose key is at least its own:
together with `sortByKeyDesc` this is the stable descending
`sort_by(|a, b| keyOf b.cmp(keyOf a))` the Rust source uses. -/
def insertAfterGe {α : Type} (key : α → ℚ) (x : α) : List α → List α
  | [] => [x]
  | y :: ys => if key x ≤ key y then y :: insertAfterGe key x ys else x :: y :: ys

/-- Stable sort by descending key. -/
def sortByKeyDesc {α : Type} (key : α → ℚ) (l : List α) : List α :=
  l.foldl (fun acc x => insertAfterGe key x acc) []

/-- Probe registry, from `ProbeRegistry` in src/core/probe.rs: the
`HashMap<ProtocolType, Vec<Box<dyn ProtocolProbe>>>` becomes an association
list (the detector iterates the map only through `get_probes` lookups and
`get_all_probes`, whose value order the map leaves unspecified; the
association-list order stands in for the map's iteration order). -/
structure ProbeRegistry where
  probes : List (ProtocolType × List Probe)
  global_probes : List Probe

/-- Mirror of `ProbeRegistry::get_probes` (src/core/probe.rs lines 158-176):
protocol-specific probes, then the global probes supporting the protocol,
sorted by descending priority. -/
def ProbeRegistry.get_probes (reg : ProbeRegistry) (p : ProtocolType) : List Probe :=
  sortByKeyDesc (fun pr => mkRat pr.priority 1)
    (((reg.probes.lookup p).getD [])
      ++ reg.global_probes.filter (fun pr => pr.supported.contains p))

/-- Mirror of `ProbeRegistry::get_all_probes` (src/core/probe.rs lines
210-224): every per-protocol probe, then every global probe, sorted by
descending priority. -/
def ProbeRegistry.get_all_probes (reg : ProbeRegistry) : List Probe :=
  sortByKeyDesc (fun pr => mkRat pr.priority 1)
    ((reg.probes.flatMap (fun e => e.2)) ++ reg.global_probes)

/-- Mirror of `ProbeAggregator::aggregate` (src/core/probe.rs lines 240-265):
drop `Unknown` candidates, sort the rest by descending confidence, and
return the top candidate iff it meets `min_confidence`.  (The empty arm of
the match is unreachable: the sort of a non-empty list is non-empty.) -/
def aggregate (cfg : ProbeConfig) (results : List ProtocolInfo) : Option ProtocolInfo :=
  if results.isEmpty then none
  else if (results.filter fun i => i.protocol_type ≠ ProtocolType.Unknown).isEmpty then
    none
  else
    match sortByKeyDesc (fun i => i.confidence)
        (results.filter fun i => i.protocol_type ≠ ProtocolType.Unknown) with
    | [] => none
    | best :: _ =>
      if best.confidence ≥ cfg.min_confidence then some best else none

/-- Mirror of the method tag chosen by `ProbeAggregator::create_result`. -/
def methodOfStrategy : ProbeStrategy → DetectionMethod
  | .Passive => .Passive
  | .Active => .Active
  | .Hybrid => .Hybrid
  | .Adaptive => .Hybrid

/-- The candidate list collected by `DefaultProtocolDetector::detect`
(src/core/detector.rs lines 210-277): a per-enabled-protocol pass over
`get_probes`, then a pass over `get_all_probes`; a probe is skipped when
`needs_more_data` holds, and `Ok(None)` or an error contributes nothing. -/
def collectResults (reg : ProbeRegistry) (enabled : List ProtocolType)
    (data : List Nat) : List ProtocolInfo :=
  (enabled.flatMap fun p =>
    (reg.get_probes p).filterMap fun pr =>
      if pr.needsMore data then none else pr.run data)
  ++ (reg.get_all_probes.filterMap fun pr =>
      if pr.needsMore data then none else pr.run data)

/-- The sequence of probe instances on which `DefaultProtocolDetector::detect`
invokes `probe(data, context)`, by id, in invocation order: the same two
loops as `collectResults`, recording every invocation whether or not it
produces a candidate. -/
def executedProbeIds (reg : ProbeRegistry) (enabled : List ProtocolType)
    (data : List Nat) : List Nat :=
  (enabled.flatMap fun p =>
    (reg.get_probes p).filterMap fun pr =>
      if pr.needsMore data then none else some pr.id)
  ++ (reg.get_all_probes.filterMap fun pr =>
      if pr.needsMore data then none else some pr.id)

/-- Time-free mirror of `DefaultProtocolDetector::detect`
(src/core/detector.rs lines 191-290): length screening, the two probe
passes, aggregation, and the final `DetectionResult`; the loop's timeout
checks and the measured `detection_time` are dropped here and kept in the
timed `detectT` below. -/
def detect (reg : ProbeRegistry) (pc : ProbeConfig) (dc : DetectionConfig)
    (enabled : List ProtocolType) (data : List Nat) :
    Except DetectorError DetectionResult :=
  if data.length < dc.min_probe_size then
    .error (.InsufficientData dc.min_probe_size data.length)
  else if data.length > dc.max_probe_size then
    .error (.DataTooLarge data.length dc.max_probe_size)
  else
    match aggregate pc (collectResults reg enabled data) with
    | none => .error .NoProtocolDetected
    | some best =>
      .ok { protocol_info := best
            detection_method := methodOfStrategy pc.strategy
            detector_name := "DefaultProtocolDetector" }

/-- The passive probe instance the default builder registers as the single
global probe (src/builder.rs `register_default_probes`): `min_data_size`
comes from `detection_config.min_probe_size` and `confidence_threshold`
from `detection_config.min_confidence`. -/
def mkPassiveProbe (id minDataSize : Nat) (threshold : ℚ) : Probe :=
  { id := id
    supported := passiveSupportedProtocols
    priority := 80
    needsMore := fun data => decide (data.length < minDataSize)
    run := fun data => PassiveProbe.probe minDataSize threshold data }

/-- The registry produced by `DetectorBuilder::build` with no custom probes
and default configuration. -/
def defaultRegistry : ProbeRegistry :=
  { probes := [], global_probes := [mkPassiveProbe 0 16 (mkRat 7 10)] }

/-- Timed engine verdict: `DetectionResult` from src/core/detector.rs with
the measured `detection_time: Duration` kept, as nanoseconds.  The Rust
structure derives `PartialEq`, which compares `detection_time` along with
the other fields. -/
structure DetectionResultT where
  protocol_info : ProtocolInfo
  detection_time : Nat
  detection_method : DetectionMethod
  detector_name : String
deriving DecidableEq, Repr

/-- Projection of a timed verdict onto the time-free `DetectionResult`:
every field of the Rust `DetectionResult` except the measured
`detection_time`. -/
def DetectionResultT.stripTime (r : DetectionResultT) : DetectionResult :=
  { protocol_info := r.protocol_info
    detection_method := r.detection_method
    detector_name := r.detector_name }

/-- One timed probe pass of `DefaultProtocolDetector::detect`, used both
for the inner loop of the per-protocol pass (src/core/detector.rs lines
224-248) and for the global pass (lines 253-277), whose bodies are
identical: a probe whose `needs_more_data` holds is skipped without
touching the clock; otherwise one `elapsed()` reading is taken (`clock k`,
the k-th reading of this invocation) and a reading past the timeout
breaks the pass, else the probe runs.  Returns the next reading index and
the candidates collected in order.  (The two passes measure from
`start_time` and from `context.start_time` respectively; both are
monotone wall-clock samples of the same invocation, so both draw from the
one clock stream.) -/
def probePassT (tmo : Nat) (clock : Nat → Nat) (data : List Nat) :
    List Probe → Nat → Nat × List ProtocolInfo
  | [], k => (k, [])
  | pr :: rest, k =>
    if pr.needsMore data then probePassT tmo clock data rest k
    else if tmo < clock k then (k + 1, [])
    else
      match pr.run data with
      | some info =>
        ((probePassT tmo clock data rest (k + 1)).1,
          info :: (probePassT tmo clock data rest (k + 1)).2)
      | none => probePassT tmo clock data rest (k + 1)

/-- The timed per-protocol pass (src/core/detector.rs lines 216-249): at
the top of each iteration one `elapsed()` reading is taken and a reading
past the timeout breaks the whole pass (line 218); otherwise the inner
probe loop runs on `get_probes` — its own timeout break only ends the
inner loop, and the next protocol is still attempted, as in the source. -/
def protocolPassT (reg : ProbeRegistry) (tmo : Nat) (clock : Nat → Nat)
    (data : List Nat) : List ProtocolType → Nat → Nat × List ProtocolInfo
  | [], k => (k, [])
  | p :: ps, k =>
    if tmo < clock k then (k + 1, [])
    else
      ((protocolPassT reg tmo clock data ps
          (probePassT tmo clock data (reg.get_probes p) (k + 1)).1).1,
        (probePassT tmo clock data (reg.get_probes p) (k + 1)).2
          ++ (protocolPassT reg tmo clock data ps
              (probePassT tmo clock data (reg.get_probes p) (k + 1)).1).2)

/-- The timed candidate collection of `DefaultProtocolDetector::detect`:
the per-protocol pass followed by the global pass over `get_all_probes`,
threading the reading index; `.2` is the candidate list handed to the
aggregator and `.1` the index of the final `start_time.elapsed()` reading
(src/core/detector.rs line 284). -/
def collectResultsT (reg : ProbeRegistry) (tmo : Nat) (clock : Nat → Nat)
    (enabled : List ProtocolType) (data : List Nat) :
    Nat × List ProtocolInfo :=
  ((probePassT tmo clock data reg.get_all_probes
      (protocolPassT reg tmo clock data enabled 0).1).1,
    (protocolPassT reg tmo clock data enabled 0).2
      ++ (probePassT tmo clock data reg.get_all_probes
          (protocolPassT reg tmo clock data enabled 0).1).2)

/-- Timed mirror of `DefaultProtocolDetector::detect` (src/core/detector.rs
lines 191-290) with the loop's timeout checks and the measured
`detection_time` kept: `tmo` is `detection_config.timeout` and `clock k`
the invocation's k-th `Instant::elapsed()` reading, both in nanoseconds.
On success `detection_time` is one further reading, taken after
aggregation (line 284). -/
def detectT (reg : ProbeRegistry) (pc : ProbeConfig) (dc : DetectionConfig)
    (tmo : Nat) (enabled : List ProtocolType) (clock : Nat → Nat)
    (data : List Nat) : Except DetectorError DetectionResultT :=
  if data.length < dc.min_probe_size then
    .error (.InsufficientData dc.min_probe_size data.length)
  else if data.length > dc.max_probe_size then
    .error (.DataTooLarge data.length dc.max_probe_size)
  else
    match aggregate pc (collectResultsT reg tmo clock enabled data).2 with
    | none => .error .NoProtocolDetected
    | some best =>
      .ok { protocol_info := best
            detection_time := clock (collectResultsT reg tmo clock enabled data).1
            detection_method := methodOfStrategy pc.strategy
            detector_name := "DefaultProtocolDetector" }

/-- ALPN detection result, from `AlpnDetectionResult` in src/core/tls_alpn.rs;
protocol names stay as byte lists (`String::from_utf8_lossy` maps ASCII bytes
to themselves and never produces ASCII from non-ASCII input, so byte-list
equality with an ASCII literal agrees with the Rust string comparison). -/
structure AlpnDetectionResult where
  protocols : List (List Nat)
  primary_protocol : Option ProtocolType
  confidence : ℚ
deriving DecidableEq, Repr

/-- The name-reading loop of `TlsAlpnDetector::parse_alpn_list`, with an
explicit structural fuel so the definition reduces inside the kernel:
starting at `pos`, read a 1-byte length and that many name bytes until the
data runs out; a name overrunning the buffer stops the loop.  Each
iteration advances `pos` by at least one while requiring `pos < d.length`,
so `d.length` iterations always suffice and the fuel in `alpnNamesLoop`
below never runs out before the loop's own exit condition. -/
def alpnNamesLoopF : Nat → List Nat → Nat → List (List Nat)
  | 0, _, _ => []
  | fuel + 1, d, pos =>
    if pos + 1 ≤ d.length then
      (if pos + 1 + bget d pos > d.length then []
       else ((d.drop (pos + 1)).take (bget d pos))
         :: alpnNamesLoopF fuel d (pos + 1 + bget d pos))
    else []

/-- The name-reading loop at its full fuel. -/
def alpnNamesLoop (d : List Nat) (pos : Nat) : List (List Nat) :=
  alpnNamesLoopF (d.length + 1) d pos

/-- Mirror of `TlsAlpnDetector::parse_alpn_list` (src/core/tls_alpn.rs lines
310-347). -/
def parse_alpn_list (alpn_data : List Nat) : Option (List (List Nat)) :=
  if alpn_data.isEmpty then none
  else if alpn_data.length < 2 then none
  else
    let listLen := u16be (bget alpn_data 0) (bget alpn_data 1)
    if 2 + listLen > alpn_data.length then none
    else
      let names := alpnNamesLoop alpn_data 2
      if names.isEmpty then none else some names

/-- The extension-walking loop of `TlsAlpnDetector::parse_alpn_extensions`,
with explicit structural fuel (each iteration advances `pos` by at least
four while requiring `pos + 4 ≤ ext.length`, so `ext.length` iterations
always suffice): returns the ALPN protocol list the loop leaves behind
(empty when no ALPN extension parsed or a length overran the buffer). -/
def alpnExtLoopF : Nat → List Nat → Nat → List (List Nat)
  | 0, _, _ => []
  | fuel + 1, ext, pos =>
    if pos + 4 ≤ ext.length then
      (if pos + 4 + u16be (bget ext (pos + 2)) (bget ext (pos + 3)) > ext.length then []
       else if u16be (bget ext pos) (bget ext (pos + 1)) = 16 then
         (match parse_alpn_list ((ext.drop (pos + 4)).take
             (u16be (bget ext (pos + 2)) (bget ext (pos + 3)))) with
          | some ps => ps
          | none => alpnExtLoopF fuel ext
              (pos + 4 + u16be (bget ext (pos + 2)) (bget ext (pos + 3))))
       else alpnExtLoopF fuel ext
         (pos + 4 + u16be (bget ext (pos + 2)) (bget ext (pos + 3))))
    else []

/-- The extension-walking loop at its full fuel. -/
def alpnExtLoop (ext : List Nat) (pos : Nat) : List (List Nat) :=
  alpnExtLoopF (ext.length + 1) ext pos

/-- Mirror of `TlsAlpnDetector::determine_primary_protocol` (src/core/tls_alpn.rs
lines 350-361). -/
def determine_primary_protocol : List (List Nat) → Option ProtocolType
  | [] => none
  | p :: rest =>
    if p = strBytes "h2" ∨ p = strBytes "h2-16" ∨ p = strBytes "h2-14" then
      some .HTTP2
    else if p = strBytes "http/1.1" ∨ p = strBytes "http/1.0" then
      some .HTTP1_1
    else if p = strBytes "h3" ∨ p = strBytes "h3-29" ∨ p = strBytes "h3-28" then
      some .HTTP3
    else determine_primary_protocol rest

/-- Mirror of `TlsAlpnDetector::calculate_confidence` (src/core/tls_alpn.rs
lines 364-383). -/
def calculate_confidence (protocols : List (List Nat))
    (primary : Option ProtocolType) : ℚ :=
  match primary with
  | none => mkRat 1 2
  | some _ =>
    let c1 : ℚ :=
      if protocols.any (fun p => (strBytes "h2").isPrefixOf p) then
        qadd (mkRat 85 100) (mkRat 1 10)
      else mkRat 85 100
    let c2 : ℚ :=
      if protocols.any (fun p => (strBytes "h3").isPrefixOf p) then
        qadd c1 (mkRat 1 10)
      else c1
    qmin c2 (mkRat 95 100)

/-- Mirror of `TlsAlpnDetector::parse_alpn_extensions` (src/core/tls_alpn.rs
lines 269-307). -/
def parse_alpn_extensions (extensions_data : List Nat) : Option AlpnDetectionResult :=
  let ps := alpnExtLoop extensions_data 0
  if ps.isEmpty then none
  else
    let primary := determine_primary_protocol ps
    some { protocols := ps
           primary_protocol := primary
           confidence := calculate_confidence ps primary }

/-- Mirror of `TlsAlpnDetector::parse_client_hello_alpn` (src/core/tls_alpn.rs
lines 204-266): skip the fixed header, the Session ID, the Cipher Suites and
the Compression Methods, then parse the extensions block (truncated blocks
are parsed with the bytes available). -/
def parse_client_hello_alpn (hd : List Nat) : Option AlpnDetectionResult :=
  if hd.length < 12 then none
  else if hd.length < 38 then none
  else if ¬ 38 < hd.length then none
  else
    let pos1 := 39 + bget hd 38
    if hd.length < pos1 then none
    else if hd.length < pos1 + 2 then none
    else
      let pos2 := pos1 + 2 + u16be (bget hd pos1) (bget hd (pos1 + 1))
      if hd.length < pos2 then none
      else if hd.length < pos2 + 1 then none
      else
        let pos3 := pos2 + 1 + bget hd pos2
        if hd.length < pos3 then none
        else if hd.length < pos3 + 2 then none
        else
          let extLen := u16be (bget hd pos3) (bget hd (pos3 + 1))
          let pos4 := pos3 + 2
          let availLen := if hd.length < pos4 + extLen then hd.length - pos4 else extLen
          if availLen = 0 then none
          else parse_alpn_extensions ((hd.drop pos4).take availLen)

/-- Mirror of `TlsAlpnDetector::detect_alpn` (src/core/tls_alpn.rs lines
165-201); `minDataSize` is the detector's `min_data_size` field, which
`TlsAlpnDetector::new` sets to 64.  A first byte that is not 0x16 fails
either `TlsRecordType::from_u8` or the Handshake comparison, both of which
return none. -/
def TlsAlpnDetector.detect_alpn (minDataSize : Nat) (data : List Nat) :
    Option AlpnDetectionResult :=
  if data.length < minDataSize then none
  else if data.length < 5 then none
  else if bget data 0 ≠ 22 then none
  else
    let recordLength := u16be (bget data 3) (bget data 4)
    let available :=
      if data.length < 5 + recordLength then data.drop 5
      else (data.drop 5).take recordLength
    if available.isEmpty then none
    else if bget available 0 ≠ 1 then none
    else parse_client_hello_alpn available

/-- Mirror of `TlsAlpnDetector::create_protocol_info` (src/core/tls_alpn.rs
lines 386-399). -/
def TlsAlpnDetector.create_protocol_info (r : AlpnDetectionResult) :
    Option ProtocolInfo :=
  match r.primary_protocol with
  | some p => some (ProtocolInfo.new p r.confidence)
  | none => some (ProtocolInfo.new .TLS (mkRat 7 10))

/-- ASCII lower-casing of one byte (`u8::to_ascii_lowercase`). -/
def toLowerByte (b : Nat) : Nat :=
  if 65 ≤ b ∧ b ≤ 90 then b + 32 else b

/-- ASCII upper-casing of one byte (`u8::to_ascii_uppercase`). -/
def toUpperByte (b : Nat) : Nat :=
  if 97 ≤ b ∧ b ≤ 122 then b - 32 else b

/-- Magic-byte signature, from `MagicSignature` in src/core/magic.rs. -/
structure MagicSignature where
  protocol : ProtocolType
  magic_bytes : List Nat
  offset : Nat
  match_length : Nat
  confidence : ℚ
  description : String
  case_sensitive : Bool
deriving DecidableEq, Repr

/-- Mirror of `MagicSignature::new`: full-length, case-sensitive match. -/
def MagicSignature.new (p : ProtocolType) (bytes : List Nat) (off : Nat)
    (conf : ℚ) (desc : String) : MagicSignature :=
  { protocol := p
    magic_bytes := bytes
    offset := off
    match_length := bytes.length
    confidence := conf
    description := desc
    case_sensitive := true }

/-- Mirror of `MagicSignature::with_match_length` (clamped to the pattern). -/
def MagicSignature.with_match_length (s : MagicSignature) (l : Nat) : MagicSignature :=
  { s with match_length := min l s.magic_bytes.length }

/-- Mirror of `MagicSignature::matches` (src/core/magic.rs lines 63-77): a
length guard, then slice comparison, byte-for-byte when case-sensitive and
under ASCII lower-casing of both sides otherwise.  (Rust slices
`magic_bytes[..match_length]`, which panics when `match_length` exceeds the
pattern; `take` truncates instead, and the two agree on every signature the
code can build, where `match_length ≤ magic_bytes.len()`.) -/
def MagicSignature.matches (s : MagicSignature) (data : List Nat) : Bool :=
  if data.length < s.offset + s.match_length then false
  else if s.case_sensitive then
    ((data.drop s.offset).take s.match_length) == s.magic_bytes.take s.match_length
  else
    (((data.drop s.offset).take s.match_length).zip
        (s.magic_bytes.take s.match_length)).all
      fun ab => toLowerByte ab.1 == toLowerByte ab.2

/-- The built-in signature table of `MagicDetector::load_common_signatures`
(src/core/magic.rs lines 109-281), in insertion order. -/
def allSignatures : List MagicSignature :=
  [ MagicSignature.new .HTTP1_1 (strBytes "GET ") 0 (mkRat 95 100) "HTTP GET request",
    MagicSignature.new .HTTP1_1 (strBytes "POST ") 0 (mkRat 95 100) "HTTP POST request",
    MagicSignature.new .HTTP1_1 (strBytes "PUT ") 0 (mkRat 95 100) "HTTP PUT request",
    MagicSignature.new .HTTP1_1 (strBytes "HEAD ") 0 (mkRat 95 100) "HTTP HEAD request",
    MagicSignature.new .HTTP1_1 (strBytes "OPTIONS ") 0 (mkRat 95 100) "HTTP OPTIONS request",
    MagicSignature.new .HTTP1_1 (strBytes "DELETE ") 0 (mkRat 95 100) "HTTP DELETE request",
    MagicSignature.new .HTTP1_1 (strBytes "HTTP/1.") 0 (mkRat 98 100) "HTTP response",
    MagicSignature.new .HTTP2 http2Preface 0 1 "HTTP/2 connection preface",
    (MagicSignature.new .TLS [22, 3] 0 (mkRat 9 10) "TLS handshake").with_match_length 2,
    (MagicSignature.new .QUIC [128] 0 (mkRat 7 10) "QUIC long header").with_match_length 1,
    MagicSignature.new .SSH (strBytes "SSH-") 0 (mkRat 99 100) "SSH protocol",
    MagicSignature.new .FTP (strBytes "220 ") 0 (mkRat 85 100) "FTP welcome message",
    MagicSignature.new .SMTP (strBytes "220 ") 0 (mkRat 8 10) "SMTP welcome",
    MagicSignature.new .WebSocket (strBytes "GET ") 0 (mkRat 3 10) "Potential WebSocket upgrade",
    MagicSignature.new .GRPC (strBytes "application/grpc") 0 (mkRat 95 100) "gRPC content type",
    (MagicSignature.new .DNS [0, 0, 1, 0] 2 (mkRat 8 10) "DNS query").with_match_length 4,
    (MagicSignature.new .MQTT [16] 0 (mkRat 7 10) "MQTT CONNECT").with_match_length 1,
    MagicSignature.new .Redis (strBytes "*") 0 (mkRat 6 10) "Redis bulk array",
    MagicSignature.new .Redis (strBytes "+OK\r\n") 0 (mkRat 9 10) "Redis OK response",
    (MagicSignature.new .MySQL [10] 4 (mkRat 8 10) "MySQL handshake").with_match_length 1 ]

/-- The enabled-protocol filter check of `MagicDetector` (a `None` filter
admits every protocol). -/
def allowedByFilter (enabled : Option (List ProtocolType)) (p : ProtocolType) : Bool :=
  match enabled with
  | none => true
  | some l => l.contains p

/-- The first-byte index keys under which `MagicDetector::add_signature`
files a signature. -/
def byteIndexKeys (s : MagicSignature) : List Nat :=
  match s.magic_bytes with
  | [] => []
  | b :: _ =>
    if s.case_sensitive then [b]
    else
      let lo := toLowerByte b
      let hi := toUpperByte b
      if hi ≠ lo then [lo, hi] else [lo]

/-- The `ProtocolInfo` built from a matching signature (metadata dropped). -/
def magicSigInfo (s : MagicSignature) : ProtocolInfo :=
  ProtocolInfo.new s.protocol s.confidence

/-- Mirror of `MagicDetector::heuristic_by_first_byte` (src/core/magic.rs
lines 367-421). -/
def heuristicByFirstByte (enabled : Option (List ProtocolType))
    (data : List Nat) (firstByte : Nat) : Option ProtocolInfo :=
  let r : Option (ProtocolType × ℚ) :=
    if firstByte = 20 ∨ firstByte = 21 ∨ firstByte = 22 ∨ firstByte = 23 then
      (if 3 ≤ data.length ∧ bget data 1 = 3 then some (.TLS, mkRat 85 100) else none)
    else if 128 ≤ firstByte then
      (if 5 ≤ data.length then some (.QUIC, mkRat 6 10) else none)
    else if firstByte = 71 ∨ firstByte = 80 ∨ firstByte = 72
        ∨ firstByte = 79 ∨ firstByte = 68 then
      (if 4 ≤ data.length then some (.HTTP1_1, mkRat 4 10) else none)
    else if firstByte = 0 then
      (if 12 ≤ data.length then some (.DNS, mkRat 3 10) else none)
    else none
  match r with
  | none => none
  | some (p, c) =>
    if allowedByFilter enabled p then some (ProtocolInfo.new p c) else none

/-- The indexed-signature scan of `MagicDetector::quick_detect`: the first
filter-admitted matching signature wins; a TLS hit first tries the ALPN
upgrade, falling back to the TLS signature info when the ALPN protocol is
filtered out; when no indexed signature fires, the first-byte heuristic
decides. -/
def quickScan (enabled : Option (List ProtocolType)) (data : List Nat)
    (firstByte : Nat) : List MagicSignature → Option ProtocolInfo
  | [] => heuristicByFirstByte enabled data firstByte
  | s :: rest =>
    if !allowedByFilter enabled s.protocol then quickScan enabled data firstByte rest
    else if s.matches data then
      (if s.protocol = .TLS then
         match TlsAlpnDetector.detect_alpn 64 data with
         | some ar =>
           match TlsAlpnDetector.create_protocol_info ar with
           | some ai =>
             (match enabled with
              | some l =>
                if l.contains ai.protocol_type then some ai else some (magicSigInfo s)
              | none => some ai)
           | none => some (magicSigInfo s)
         | none => some (magicSigInfo s)
       else some (magicSigInfo s))
    else quickScan enabled data firstByte rest

/-- Mirror of `MagicDetector::quick_detect` (src/core/magic.rs lines
320-364): empty input is rejected, then the signatures indexed under the
first byte are scanned in insertion order. -/
def MagicDetector.quick_detect (enabled : Option (List ProtocolType))
    (sigs : List MagicSignature) (data : List Nat) : Option ProtocolInfo :=
  match data with
  | [] => none
  | b :: _ =>
    quickScan enabled data b (sigs.filter (fun s => (byteIndexKeys s).contains b))

/-- Mirror of `MagicDetector::deep_detect` (src/core/magic.rs lines 424-447):
every filter-admitted matching signature contributes, sorted by descending
confidence. -/
def MagicDetector.deep_detect (enabled : Option (List ProtocolType))
    (sigs : List MagicSignature) (data : List Nat) : List ProtocolInfo :=
  sortByKeyDesc (fun i => i.confidence)
    ((sigs.filter (fun s => allowedByFilter enabled s.protocol && s.matches data)).map
      magicSigInfo)

/-- Spec-side slice comparison for C4 (the specification's wording): plain
equality when case-sensitive, equality after ASCII lower-casing otherwise. -/
def sliceEqUnderCase (cs : Bool) (xs ys : List Nat) : Prop :=
  if cs then xs = ys else xs.map toLowerByte = ys.map toLowerByte

/-- The built-in gRPC magic signature (src/core/magic.rs lines 225-232). -/
def grpcMagicSig : MagicSignature :=
  MagicSignature.new .GRPC (strBytes "application/grpc") 0 (mkRat 95 100)
    "gRPC content type"

/-- A buffer carrying the gRPC content-type string at offset 1. -/
def grpcOffsetBuf : List Nat := strBytes "xapplication/grpc"

/-- A 9-byte HTTP/2 SETTINGS-like frame header (frame-type byte 0x04). -/
def http2FrameBuf9 : List Nat := [0, 0, 0, 4, 0, 0, 0, 0, 0]

/-- A 24-byte buffer, not the preface, whose byte 3 is the HEADERS frame
type 0x01. -/
def http2HeadersBuf24 : List Nat := 0 :: 0 :: 0 :: 1 :: List.replicate 20 0

/-- A well-formed 56-byte ClientHello handshake message carrying an ALPN
extension listing exactly the protocol name h2: handshake type 0x01,
3-byte length, version 3.3, 32-byte random, empty session id, one cipher
suite, one compression method, and a 9-byte extension block holding the
ALPN extension (type 0x0010, length 5, list length 3, one 2-byte name). -/
def alpnClientHello56 : List Nat :=
  [1, 0, 0, 52, 3, 3] ++ List.replicate 32 0
    ++ [0, 0, 2, 19, 1, 1, 0, 0, 9, 0, 16, 0, 5, 0, 3, 2, 104, 50]

/-- The ClientHello above wrapped in a TLS Handshake record: 61 bytes. -/
def tlsAlpnShort : List Nat := [22, 3, 1, 0, 56] ++ alpnClientHello56

/-- The same record padded with six trailing bytes to reach 67 bytes;
`detect_alpn` truncates to the record length, so the padding is inert. -/
def tlsAlpnPadded : List Nat := tlsAlpnShort ++ [0, 0, 0, 0, 0, 0]

/-- A 62-byte buffer that begins with GET, contains the WebSocket upgrade
header and the gRPC content type, has no 101 status line, and carries a
zero byte at index 27 (an HTTP/2-frame-type position the gRPC recognizer
checks). -/
def getUpgradeGrpcBuf : List Nat :=
  strBytes "GET " ++ List.replicate 23 120 ++ [0]
    ++ strBytes "application/grpc" ++ strBytes "Upgrade: websocket"

/-! Helper lemmas. -/

theorem qadd_eq (a b : ℚ) : qadd a b = a + b :=
  (Rat.add_def' a b).symm

theorem qmul_eq (a b : ℚ) : qmul a b = a * b := by
  rw [qmul, Rat.mul_def, Rat.normalize_eq_mkRat]

theorem qmin_eq (a b : ℚ) : qmin a b = min a b :=
  (min_def a b).symm

theorem qmax_eq (a b : ℚ) : qmax a b = max a b :=
  (max_def a b).symm

theorem bit7_eq_testBit (b : Nat) : bit7 b = Nat.testBit b 7 := by
  rw [Nat.testBit_to_div_mod]
  rfl

theorem mem_insertAfterGe {α : Type} (key : α → ℚ) (x a : α) (l : List α) :
    a ∈ insertAfterGe key x l ↔ a = x ∨ a ∈ l := by
  induction l with
  | nil => simp [insertAfterGe]
  | cons y ys ih =>
    simp only [insertAfterGe]
    split
    · simp only [List.mem_cons, ih]
      tauto
    · simp only [List.mem_cons]

theorem mem_foldl_insertAfterGe {α : Type} (key : α → ℚ) (l acc : List α) (a : α) :
    a ∈ l.foldl (fun acc x => insertAfterGe key x acc) acc ↔ a ∈ acc ∨ a ∈ l := by
  induction l generalizing acc with
  | nil => simp
  | cons x xs ih =>
    simp only [List.foldl_cons, ih, mem_insertAfterGe, List.mem_cons]
    tauto

theorem mem_sortByKeyDesc {α : Type} (key : α → ℚ) (l : List α) (a : α) :
    a ∈ sortByKeyDesc key l ↔ a ∈ l := by
  simp [sortByKeyDesc, mem_foldl_insertAfterGe]

theorem infixAux_length {n h : List Nat} (hx : infixAux n h = true) :
    n.length ≤ h.length := by
  induction h with
  | nil =>
    simp only [infixAux, List.isEmpty_iff] at hx
    simp [hx]
  | cons b t ih =>
    simp only [infixAux, Bool.or_eq_true] at hx
    rcases hx with hp | ht
    · simpa using (List.isPrefixOf_iff_prefix.mp hp).length_le
    · have := ih ht
      simp only [List.length_cons]
      omega

theorem infixAux_of_isPrefixOf {n d : List Nat} (hp : n.isPrefixOf d = true) :
    infixAux n d = true := by
  cases d with
  | nil =>
    cases n with
    | nil => rfl
    | cons a as => simp at hp
  | cons b t => simp [infixAux, hp]

theorem fastSearch_of_isPrefixOf {d n : List Nat} (hn : n.isEmpty = false)
    (hp : n.isPrefixOf d = true) : fastSearch d n = true := by
  simp [fastSearch, hn, infixAux_of_isPrefixOf hp]

theorem exists_rest_of_GET {data : List Nat}
    (h : (strBytes "GET ").isPrefixOf data = true) :
    ∃ rest, data = 71 :: 69 :: 84 :: 32 :: rest := by
  have hb : strBytes "GET " = [71, 69, 84, 32] := rfl
  rw [hb] at h
  obtain ⟨t, ht⟩ := List.isPrefixOf_iff_prefix.mp h
  exact ⟨t, ht.symm⟩

theorem length_ge_of_GET_upgrade {rest : List Nat}
    (h2 : fastSearch (71 :: 69 :: 84 :: 32 :: rest) (strBytes "Upgrade: websocket") = true) :
    18 ≤ rest.length := by
  have e0 : strBytes "Upgrade: websocket"
      = 85 :: 112 :: 103 :: 114 :: 97 :: 100 :: 101 :: 58 :: 32 :: 119
        :: 101 :: 98 :: 115 :: 111 :: 99 :: 107 :: 101 :: 116 :: [] := rfl
  simp only [fastSearch, Bool.and_eq_true] at h2
  have h2x : infixAux (strBytes "Upgrade: websocket") rest = true := by
    have := h2.2
    simpa [infixAux, e0, List.isPrefixOf_cons₂] using this
  have := infixAux_length h2x
  rw [e0] at this
  simpa using this

theorem aggregate_some_spec {cfg : ProbeConfig} {results : List ProtocolInfo}
    {info : ProtocolInfo} (h : aggregate cfg results = some info) :
    cfg.min_confidence ≤ info.confidence ∧ info ∈ results ∧
      info.protocol_type ≠ ProtocolType.Unknown := by
  unfold aggregate at h
  split at h
  · simp at h
  · split at h
    · simp at h
    · cases hS : sortByKeyDesc (fun i => i.confidence)
          (results.filter fun i => i.protocol_type ≠ ProtocolType.Unknown) with
      | nil => rw [hS] at h; simp at h
      | cons best tail =>
        rw [hS] at h
        simp only [ge_iff_le] at h
        split at h
        · cases h
          refine ⟨by assumption, ?_⟩
          have hmem : info ∈ sortByKeyDesc (fun i => i.confidence)
              (results.filter fun i => i.protocol_type ≠ ProtocolType.Unknown) := by
            rw [hS]
            exact List.mem_cons_self _ _
          rw [mem_sortByKeyDesc] at hmem
          have := List.mem_filter.mp hmem
          exact ⟨this.1, by simpa using this.2⟩
        · simp at h

/-! Concrete inputs used by witnesses and counterexamples. -/

/-- An SSH identification line (21 bytes). -/
def sshProbeData : List Nat := strBytes "SSH-2.0-OpenSSH_8.0\r\n"

/-- An HTTP GET request line (16 bytes). -/
def httpGetData : List Nat := strBytes "GET / HTTP/1.1\r\n"

/-! Claim theorems. -/

/-- Claim C1: for every input buffer the engine accepts, whenever
`DefaultProtocolDetector::detect` returns `Ok(result)`, the result's
confidence is at least the configured `probe_config.min_confidence`,
because `ProbeAggregator::aggregate` only returns a candidate meeting
the gate and `detect` otherwise fails with `NoProtocolDetected`. -/
theorem claim_C1 (reg : ProbeRegistry) (pc : ProbeConfig) (dc : DetectionConfig)
    (enabled : List ProtocolType) (data : List Nat) (r : DetectionResult)
    (h : detect reg pc dc enabled data = .ok r) :
    pc.min_confidence ≤ r.confidence := by
  unfold detect at h
  split at h
  · simp at h
  · split at h
    · simp at h
    · cases hA : aggregate pc (collectResults reg enabled data) with
      | none => rw [hA] at h; simp at h
      | some best =>
        rw [hA] at h
        simp only [Except.ok.injEq] at h
        subst h
        exact (aggregate_some_spec hA).1

theorem claim_C1_witness :
    ProbeConfig.default.min_confidence ≤
      (DetectionResult.mk ⟨.HTTP1_1, mkRat 9 10⟩ .Passive "DefaultProtocolDetector").confidence :=
  claim_C1 defaultRegistry ProbeConfig.default DetectionConfig.default
    [.HTTP1_1] httpGetData _ (by decide)

/-- Claim C2 counterexample: with only `HTTP1_1` enabled and the default
builder registry (the passive probe registered as a global probe), an input
beginning with SSH-2.0 yields an SSH verdict: the enabled-protocol set
does not constrain the protocol a successful `detect` reports. -/
theorem claim_C2_cex :
    detect defaultRegistry ProbeConfig.default DetectionConfig.default
        [ProtocolType.HTTP1_1] sshProbeData
      = .ok ⟨⟨.SSH, mkRat 49 50⟩, .Passive, "DefaultProtocolDetector"⟩
    ∧ ¬ (ProtocolType.SSH ∈ [ProtocolType.HTTP1_1] ∨ ProtocolType.SSH = .Custom) :=
  ⟨by decide, by decide⟩

/-- Claim C2, amended: a successful `detect` verdict need not lie in
`enabled_protocols ∪ {Custom}` (a global probe reachable from any enabled
protocol may report whatever protocol it recognizes); what does hold is
that the winning `ProtocolInfo` is one of the candidates the probe passes
collected and is never `Unknown`. -/
theorem claim_C2 (reg : ProbeRegistry) (pc : ProbeConfig) (dc : DetectionConfig)
    (enabled : List ProtocolType) (data : List Nat) (r : DetectionResult)
    (h : detect reg pc dc enabled data = .ok r) :
    r.protocol_info.protocol_type ≠ ProtocolType.Unknown ∧
      r.protocol_info ∈ collectResults reg enabled data := by
  unfold detect at h
  split at h
  · simp at h
  · split at h
    · simp at h
    · cases hA : aggregate pc (collectResults reg enabled data) with
      | none => rw [hA] at h; simp at h
      | some best =>
        rw [hA] at h
        simp only [Except.ok.injEq] at h
        subst h
        exact ⟨(aggregate_some_spec hA).2.2, (aggregate_some_spec hA).2.1⟩

theorem claim_C2_witness :
    ProtocolInfo.protocol_type ⟨.SSH, mkRat 49 50⟩ ≠ ProtocolType.Unknown ∧
      (⟨.SSH, mkRat 49 50⟩ : ProtocolInfo)
        ∈ collectResults defaultRegistry [ProtocolType.HTTP1_1] sshProbeData :=
  claim_C2 defaultRegistry ProbeConfig.default DetectionConfig.default
    [ProtocolType.HTTP1_1] sshProbeData
    ⟨⟨.SSH, mkRat 49 50⟩, .Passive, "DefaultProtocolDetector"⟩ (by decide)

/-- Claim C3 counterexample: with the default registry (the passive probe as
the single global probe, id 0) and two enabled protocols it supports, one
`detect` call invokes that probe instance three times — once per enabled
protocol through the per-protocol pass and once more in the global pass —
so the engine does not deduplicate probe executions. -/
theorem claim_C3_cex :
    (executedProbeIds defaultRegistry [ProtocolType.HTTP1_1, ProtocolType.HTTP2]
        httpGetData).count (mkPassiveProbe 0 16 (mkRat 7 10)).id = 3
    ∧ ¬ (executedProbeIds defaultRegistry [ProtocolType.HTTP1_1, ProtocolType.HTTP2]
        httpGetData).count (mkPassiveProbe 0 16 (mkRat 7 10)).id ≤ 1 :=
  ⟨by decide, by decide⟩

/-- Claim C3, amended: there is no deduplication.  For a registry holding a
single global probe, one `detect` call runs the probe once for every
enabled protocol in its supported set, plus once in the global pass. -/
theorem claim_C3 (pr : Probe) (enabled : List ProtocolType) (data : List Nat)
    (h : pr.needsMore data = false) :
    (executedProbeIds ⟨[], [pr]⟩ enabled data).count pr.id
      = enabled.countP (fun p => pr.supported.contains p) + 1 := by
  have hget : ∀ p, ProbeRegistry.get_probes ⟨[], [pr]⟩ p
      = if p ∈ pr.supported then [pr] else [] := by
    intro p
    unfold ProbeRegistry.get_probes
    by_cases hc : p ∈ pr.supported
    · simp [hc, sortByKeyDesc, insertAfterGe]
    · simp [hc, sortByKeyDesc]
  have hall : ProbeRegistry.get_all_probes ⟨[], [pr]⟩ = [pr] := by
    simp [ProbeRegistry.get_all_probes, sortByKeyDesc, insertAfterGe]
  have hcount : ∀ L : List ProtocolType,
      ((L.flatMap fun p => (ProbeRegistry.get_probes ⟨[], [pr]⟩ p).filterMap
        fun q => if q.needsMore data then none else some q.id)).count pr.id
      = L.countP (fun p => pr.supported.contains p) := by
    intro L
    induction L with
    | nil => rfl
    | cons p ps ih =>
      rw [List.flatMap_cons, List.count_append, ih, List.countP_cons, hget p]
      by_cases hc : p ∈ pr.supported
      · simp [hc, h]
        omega
      · simp [hc]
  unfold executedProbeIds
  rw [hall, List.count_append, hcount]
  simp [h]

theorem claim_C3_witness :
    (executedProbeIds ⟨[], [mkPassiveProbe 0 16 (mkRat 7 10)]⟩
        [ProtocolType.HTTP1_1, ProtocolType.HTTP2] httpGetData).count
        (mkPassiveProbe 0 16 (mkRat 7 10)).id
      = [ProtocolType.HTTP1_1, ProtocolType.HTTP2].countP
          (fun p => (mkPassiveProbe 0 16 (mkRat 7 10)).supported.contains p) + 1 :=
  claim_C3 (mkPassiveProbe 0 16 (mkRat 7 10)) [ProtocolType.HTTP1_1, ProtocolType.HTTP2]
    httpGetData (by decide)

/-- Invariant of the best-match fold: as long as every candidate protocol is
not `Unknown`, a fold result still labelled `Unknown` kept its initial
confidence bound. -/
theorem foldl_best_unknown (l : List (ProtocolType × ℚ)) (init : ProtocolType × ℚ)
    (hl : ∀ pc ∈ l, pc.1 ≠ ProtocolType.Unknown)
    (hinit : init.1 = ProtocolType.Unknown → init.2 ≤ 0) :
    (l.foldl (fun best pc => if pc.2 > best.2 then pc else best) init).1
        = ProtocolType.Unknown →
      (l.foldl (fun best pc => if pc.2 > best.2 then pc else best) init).2 ≤ 0 := by
  induction l generalizing init with
  | nil => simpa using hinit
  | cons x xs ih =>
    simp only [List.foldl_cons]
    apply ih
    · intro pc hpc
      exact hl pc (List.mem_cons_of_mem _ hpc)
    · by_cases hx : x.2 > init.2
      · simp only [if_pos hx]
        intro hU
        exact absurd hU (hl x (List.mem_cons_self _ _))
      · simp only [if_neg hx]
        exact hinit

theorem mem_mkDet {p : ProtocolType} {oc : Option ℚ} {pc : ProtocolType × ℚ}
    (h : pc ∈ mkDet p oc) : pc.1 = p := by
  cases oc with
  | none => simp [mkDet] at h
  | some c =>
    simp [mkDet] at h
    rw [h]

theorem passiveDetections_ne_unknown (data : List Nat) :
    ∀ pc ∈ passiveDetections data, pc.1 ≠ ProtocolType.Unknown := by
  intro pc hpc
  simp only [passiveDetections, List.mem_append] at hpc
  rcases hpc with (((((((h | h) | h) | h) | h) | h) | h) | h) <;>
    (rw [Ne, mem_mkDet h]; decide)

/-- Claim C10: with a positive confidence threshold, the passive probe's
`ProtocolProbe::probe` never returns a candidate whose protocol is
`Unknown` — when no recognizer fires the best protocol stays `Unknown` at
confidence 0.0, which is below the threshold, so the probe returns
`Ok(None)`. -/
theorem claim_C10 (minDataSize : Nat) (t : ℚ) (data : List Nat) (info : ProtocolInfo)
    (ht : 0 < t) (h : PassiveProbe.probe minDataSize t data = some info) :
    info.protocol_type ≠ ProtocolType.Unknown := by
  unfold PassiveProbe.probe at h
  split at h
  · simp at h
  · split at h
    · next hge =>
      cases h
      show (bestDetection (passiveDetections data)).1 ≠ ProtocolType.Unknown
      intro hU
      have hle : (bestDetection (passiveDetections data)).2 ≤ 0 := by
        unfold bestDetection
        exact foldl_best_unknown _ _ (passiveDetections_ne_unknown data)
          (fun _ => le_refl 0) hU
      have hpos : (0 : ℚ) < (bestDetection (passiveDetections data)).2 :=
        lt_of_lt_of_le ht hge
      linarith
    · simp at h

theorem claim_C10_witness :
    (0 : ℚ) < mkRat 7 10 ∧
      (ProtocolInfo.new .HTTP1_1 (mkRat 9 10)).protocol_type ≠ ProtocolType.Unknown :=
  ⟨by decide,
    claim_C10 16 (mkRat 7 10) httpGetData (ProtocolInfo.new .HTTP1_1 (mkRat 9 10))
      (by decide) (by decide)⟩

theorem probePassT_snd (tmo : Nat) (c : Nat → Nat) (data : List Nat)
    (h : ∀ k, c k ≤ tmo) (l : List Probe) :
    ∀ k : Nat, (probePassT tmo c data l k).2
      = l.filterMap fun pr => if pr.needsMore data then none else pr.run data := by
  induction l with
  | nil => intro k; rfl
  | cons pr rest ih =>
    intro k
    have hnt : ¬ tmo < c k := Nat.not_lt.mpr (h k)
    cases hm : pr.needsMore data with
    | true => simp [probePassT, hm, List.filterMap_cons, ih]
    | false =>
      cases hr : pr.run data with
      | none => simp [probePassT, hm, hnt, hr, List.filterMap_cons, ih]
      | some info => simp [probePassT, hm, hnt, hr, List.filterMap_cons, ih]

theorem protocolPassT_snd (reg : ProbeRegistry) (tmo : Nat) (c : Nat → Nat)
    (data : List Nat) (h : ∀ k, c k ≤ tmo) (ps : List ProtocolType) :
    ∀ k : Nat, (protocolPassT reg tmo c data ps k).2
      = ps.flatMap fun p => (reg.get_probes p).filterMap
          fun pr => if pr.needsMore data then none else pr.run data := by
  induction ps with
  | nil => intro k; rfl
  | cons p rest ih =>
    intro k
    have hnt : ¬ tmo < c k := Nat.not_lt.mpr (h k)
    simp [protocolPassT, hnt, probePassT_snd tmo c data h, ih]

theorem collectResultsT_snd (reg : ProbeRegistry) (tmo : Nat) (c : Nat → Nat)
    (enabled : List ProtocolType) (data : List Nat) (h : ∀ k, c k ≤ tmo) :
    (collectResultsT reg tmo c enabled data).2
      = collectResults reg enabled data := by
  unfold collectResultsT collectResults
  rw [probePassT_snd tmo c data h, protocolPassT_snd reg tmo c data h]

theorem detectT_stripTime (reg : ProbeRegistry) (pc : ProbeConfig)
    (dc : DetectionConfig) (tmo : Nat) (enabled : List ProtocolType)
    (c : Nat → Nat) (data : List Nat) (h : ∀ k, c k ≤ tmo) :
    Except.map DetectionResultT.stripTime (detectT reg pc dc tmo enabled c data)
      = detect reg pc dc enabled data := by
  unfold detectT detect
  rw [collectResultsT_snd reg tmo c enabled data h]
  by_cases h1 : data.length < dc.min_probe_size
  · rw [if_pos h1, if_pos h1]; rfl
  · rw [if_neg h1, if_neg h1]
    by_cases h2 : data.length > dc.max_probe_size
    · rw [if_pos h2, if_pos h2]; rfl
    · rw [if_neg h2, if_neg h2]
      cases hA : aggregate pc (collectResults reg enabled data) with
      | none => rfl
      | some best => rfl

/-- Claim C9, counterexample to the original statement: two invocations of
`detect` are two clock streams (wall-clock readings differ run to run), and
the Rust `DetectionResult` derives `PartialEq` over the measured
`detection_time`.  On the default engine and a plain HTTP GET input, an
invocation whose elapsed readings are all 0 ns and one whose readings are
all 1 ns classify identically — equal results after stripping the
measured time — yet their `DetectionResult` values are NOT equal, because
the `detection_time` fields differ; so `detect(d) == detect(d)` fails
across invocations. -/
theorem claim_C9_cex :
    (Except.map DetectionResultT.stripTime
        (detectT defaultRegistry ProbeConfig.default DetectionConfig.default
          1000000000 [ProtocolType.HTTP1_1] (fun _ => 0) httpGetData)
      = Except.map DetectionResultT.stripTime
        (detectT defaultRegistry ProbeConfig.default DetectionConfig.default
          1000000000 [ProtocolType.HTTP1_1] (fun _ => 1) httpGetData))
    ∧ detectT defaultRegistry ProbeConfig.default DetectionConfig.default
          1000000000 [ProtocolType.HTTP1_1] (fun _ => 0) httpGetData
        ≠ detectT defaultRegistry ProbeConfig.default DetectionConfig.default
          1000000000 [ProtocolType.HTTP1_1] (fun _ => 1) httpGetData :=
  ⟨by decide, by decide⟩

/-- Claim C9, amended: detection is deterministic up to the measured
`detection_time`.  For any two invocations — two clock streams — none of
whose elapsed readings exceeds the timeout, the collected candidate lists
are equal, the verdicts are equal after stripping the measured time, and
both coincide with the time-free model `collectResults`/`detect`; full
`DetectionResult` equality can still fail, since the `detection_time`
field compared by the derived `PartialEq` is a wall-clock measurement
(see the counterexample). -/
theorem claim_C9 (reg : ProbeRegistry) (pc : ProbeConfig) (dc : DetectionConfig)
    (tmo : Nat) (enabled : List ProtocolType) (data : List Nat)
    (c1 c2 : Nat → Nat) (h1 : ∀ k, c1 k ≤ tmo) (h2 : ∀ k, c2 k ≤ tmo) :
    (collectResultsT reg tmo c1 enabled data).2
        = (collectResultsT reg tmo c2 enabled data).2
      ∧ Except.map DetectionResultT.stripTime
            (detectT reg pc dc tmo enabled c1 data)
          = Except.map DetectionResultT.stripTime
            (detectT reg pc dc tmo enabled c2 data)
      ∧ (collectResultsT reg tmo c1 enabled data).2
          = collectResults reg enabled data
      ∧ Except.map DetectionResultT.stripTime
            (detectT reg pc dc tmo enabled c1 data)
          = detect reg pc dc enabled data := by
  refine ⟨?_, ?_, collectResultsT_snd reg tmo c1 enabled data h1,
    detectT_stripTime reg pc dc tmo enabled c1 data h1⟩
  · rw [collectResultsT_snd reg tmo c1 enabled data h1,
      collectResultsT_snd reg tmo c2 enabled data h2]
  · rw [detectT_stripTime reg pc dc tmo enabled c1 data h1,
      detectT_stripTime reg pc dc tmo enabled c2 data h2]

theorem claim_C9_witness :
    Except.map DetectionResultT.stripTime
        (detectT defaultRegistry ProbeConfig.default DetectionConfig.default
          1000000000 [ProtocolType.HTTP1_1] (fun _ => 0) httpGetData)
      = detect defaultRegistry ProbeConfig.default DetectionConfig.default
          [ProtocolType.HTTP1_1] httpGetData :=
  (claim_C9 defaultRegistry ProbeConfig.default DetectionConfig.default
      1000000000 [ProtocolType.HTTP1_1] httpGetData (fun _ => 0) (fun _ => 0)
      (fun _ => Nat.zero_le _) (fun _ => Nat.zero_le _)).2.2.2

theorem zipAll_lower_iff {xs ys : List Nat} (h : xs.length = ys.length) :
    (((xs.zip ys).all fun ab => toLowerByte ab.1 == toLowerByte ab.2) = true) ↔
      xs.map toLowerByte = ys.map toLowerByte := by
  induction xs generalizing ys with
  | nil =>
    cases ys with
    | nil => simp
    | cons b bs => simp at h
  | cons a as ih =>
    cases ys with
    | nil => simp at h
    | cons b bs =>
      simp only [List.zip_cons_cons, List.all_cons, Bool.and_eq_true, beq_iff_eq,
        List.map_cons, List.cons.injEq]
      rw [ih (by simpa using h)]

/-- Claim C4: `MagicSignature::matches` holds iff the buffer is long enough
and the slice at the signature's offset equals the first `match_length`
pattern bytes under the case-sensitivity flag; consequently matching only
depends on the first `offset + match_length` bytes.  The hypothesis
`match_length ≤ magic_bytes.len()` is the invariant every constructor of
`MagicSignature` maintains (Rust would panic without it). -/
theorem matches_iff (s : MagicSignature) (data : List Nat)
    (hwf : s.match_length ≤ s.magic_bytes.length) :
    s.matches data = true ↔
      s.offset + s.match_length ≤ data.length ∧
        sliceEqUnderCase s.case_sensitive
          ((data.drop s.offset).take s.match_length)
          (s.magic_bytes.take s.match_length) := by
  have hdlen : ∀ _ : s.offset + s.match_length ≤ data.length,
      ((data.drop s.offset).take s.match_length).length = s.match_length := by
    intro hlen
    simp only [List.length_take, List.length_drop]
    omega
  have hmlen : (s.magic_bytes.take s.match_length).length = s.match_length := by
    simp only [List.length_take]
    omega
  constructor
  · intro hm
    unfold MagicSignature.matches at hm
    split at hm
    · simp at hm
    · next hlen =>
      refine ⟨by omega, ?_⟩
      unfold sliceEqUnderCase
      by_cases hcs : s.case_sensitive
      · rw [if_pos hcs] at hm ⊢
        simpa using hm
      · rw [if_neg hcs] at hm ⊢
        rw [← zipAll_lower_iff (by rw [hdlen (by omega), hmlen])]
        exact hm
  · rintro ⟨hlen, heq⟩
    unfold MagicSignature.matches
    rw [if_neg (by omega)]
    unfold sliceEqUnderCase at heq
    by_cases hcs : s.case_sensitive
    · rw [if_pos hcs] at heq ⊢
      simpa using heq
    · rw [if_neg hcs] at heq ⊢
      rw [zipAll_lower_iff (by rw [hdlen hlen, hmlen])]
      exact heq

/-- Claim C4: `MagicSignature::matches` holds iff the buffer is long enough
and the slice at the signature's offset equals the first `match_length`
pattern bytes under the case-sensitivity flag; consequently matching only
depends on the first `offset + match_length` bytes.  The hypothesis
`match_length ≤ magic_bytes.len()` is the invariant every constructor of
`MagicSignature` maintains (Rust would panic without it). -/
theorem claim_C4 (s : MagicSignature) (data : List Nat)
    (hwf : s.match_length ≤ s.magic_bytes.length) :
    (s.matches data = true ↔
      s.offset + s.match_length ≤ data.length ∧
        sliceEqUnderCase s.case_sensitive
          ((data.drop s.offset).take s.match_length)
          (s.magic_bytes.take s.match_length)) ∧
    (s.offset + s.match_length ≤ data.length →
      s.matches data = s.matches (data.take (s.offset + s.match_length))) := by
  refine ⟨matches_iff s data hwf, ?_⟩
  intro hlen
  have htlen : (data.take (s.offset + s.match_length)).length
      = s.offset + s.match_length := by
    simp only [List.length_take]
    omega
  have hslice : ((data.take (s.offset + s.match_length)).drop s.offset).take s.match_length
      = (data.drop s.offset).take s.match_length := by
    rw [List.drop_take]
    have he : s.offset + s.match_length - s.offset = s.match_length := by omega
    rw [he, List.take_take, Nat.min_self]
  have e2 := matches_iff s (data.take (s.offset + s.match_length)) hwf
  rw [htlen, hslice] at e2
  have hiff : s.matches data = true ↔
      s.matches (data.take (s.offset + s.match_length)) = true := by
    rw [matches_iff s data hwf, e2]
    constructor
    · rintro ⟨_, hq⟩
      exact ⟨le_refl _, hq⟩
    · rintro ⟨_, hq⟩
      exact ⟨hlen, hq⟩
  cases hq1 : s.matches data <;>
    cases hq2 : s.matches (data.take (s.offset + s.match_length)) <;>
      simp_all

theorem claim_C4_witness :
    grpcMagicSig.match_length ≤ grpcMagicSig.magic_bytes.length ∧
      (grpcMagicSig.matches grpcOffsetBuf = true ↔
        grpcMagicSig.offset + grpcMagicSig.match_length ≤ grpcOffsetBuf.length ∧
          sliceEqUnderCase grpcMagicSig.case_sensitive
            ((grpcOffsetBuf.drop grpcMagicSig.offset).take grpcMagicSig.match_length)
            (grpcMagicSig.magic_bytes.take grpcMagicSig.match_length)) :=
  ⟨by decide, (claim_C4 grpcMagicSig grpcOffsetBuf (by decide)).1⟩

/-- Claim C5 counterexample: `detect_http2` requires 24 bytes before it
looks at the frame-type byte, so a 9-byte buffer whose byte 3 is the
SETTINGS type 0x04 yields no HTTP/2 verdict at all; and on a 24-byte
non-preface buffer whose byte 3 is the HEADERS type 0x01 the confidence is
0.80, not the claimed frame-specific 0.90. -/
theorem claim_C5_cex :
    detect_http2 http2FrameBuf9 = none
    ∧ 9 ≤ http2FrameBuf9.length ∧ http2FrameBuf9.length ≤ 23
    ∧ bget http2FrameBuf9 3 = 4
    ∧ detect_http2 http2HeadersBuf24 = some (mkRat 8 10)
    ∧ bget http2HeadersBuf24 3 = 1
    ∧ mkRat 8 10 ≠ mkRat 9 10 := by
  decide

/-- Claim C5, amended: an exact prefix match of the 24-byte preface yields
confidence exactly 1.00; otherwise, for every buffer of at least 24 bytes
whose byte at index 3 is 0x04 (SETTINGS) or 0x01 (HEADERS), `detect_http2`
returns confidence 0.80 for either frame type; buffers shorter than 24
bytes always return none. -/
theorem claim_C5 (data : List Nat) :
    (http2Preface.isPrefixOf data = true → detect_http2 data = some 1) ∧
    (24 ≤ data.length → http2Preface.isPrefixOf data = false →
      bget data 3 = 4 ∨ bget data 3 = 1 → detect_http2 data = some (mkRat 8 10)) ∧
    (data.length < 24 → detect_http2 data = none) := by
  refine ⟨?_, ?_, ?_⟩
  · intro hp
    have hlen : (24 : Nat) ≤ data.length := by
      have := (List.isPrefixOf_iff_prefix.mp hp).length_le
      simpa using this
    simp [detect_http2, hp, Nat.not_lt.mpr hlen]
  · intro hlen hpre hbyte
    have h9 : (9 : Nat) ≤ data.length := by omega
    simp [detect_http2, Nat.not_lt.mpr hlen, hpre, h9, hbyte]
  · intro hlen
    simp [detect_http2, hlen]

theorem claim_C5_witness :
    detect_http2 (http2Preface ++ List.replicate 9 0) = some 1 ∧
      detect_http2 http2HeadersBuf24 = some (mkRat 8 10) :=
  ⟨(claim_C5 (http2Preface ++ List.replicate 9 0)).1 (by decide),
    (claim_C5 http2HeadersBuf24).2.1 (by decide) (by decide) (Or.inr (by decide))⟩

theorem grpc_matches_iff (data : List Nat) :
    grpcMagicSig.matches data = true ↔
      (strBytes "application/grpc").isPrefixOf data = true := by
  rw [matches_iff grpcMagicSig data (by decide)]
  have h0 : grpcMagicSig.offset = 0 := rfl
  have hm : grpcMagicSig.match_length = 16 := rfl
  have hcs : grpcMagicSig.case_sensitive = true := rfl
  have hbytes : grpcMagicSig.magic_bytes = strBytes "application/grpc" := rfl
  have htake : (strBytes "application/grpc").take 16 = strBytes "application/grpc" := rfl
  rw [h0, hm, hcs, hbytes, htake]
  unfold sliceEqUnderCase
  simp only [if_pos rfl, List.drop_zero, Nat.zero_add]
  rw [List.isPrefixOf_iff_prefix]
  constructor
  · rintro ⟨hlen, heq⟩
    rw [List.prefix_iff_eq_take]
    have h16 : (strBytes "application/grpc").length = 16 := rfl
    rw [h16]
    exact heq.symm
  · intro hp
    have hlen := hp.length_le
    have h16 : (strBytes "application/grpc").length = 16 := rfl
    refine ⟨by omega, ?_⟩
    have := List.prefix_iff_eq_take.mp hp
    rw [h16] at this
    exact this.symm

/-- Claim C7 counterexample: the built-in gRPC signature is a fixed
offset-0 match, not a content search: a buffer carrying
application-slash-grpc at offset 1 produces no result at all from either
`quick_detect` or `deep_detect` with the built-in table. -/
theorem claim_C7_cex :
    fastSearch grpcOffsetBuf (strBytes "application/grpc") = true ∧
      MagicDetector.deep_detect none allSignatures grpcOffsetBuf = [] ∧
      MagicDetector.quick_detect none allSignatures grpcOffsetBuf = none := by
  decide

/-- Claim C7, amended: the built-in gRPC signature fires exactly when the
buffer begins with the 16-byte string application-slash-grpc (offset 0,
full-length, case-sensitive match), contributing a gRPC info at confidence
0.95 to `deep_detect`; an occurrence at any non-zero offset is invisible
to the magic registry. -/
theorem claim_C7 (data : List Nat) :
    magicSigInfo grpcMagicSig ∈ MagicDetector.deep_detect none allSignatures data ↔
      (strBytes "application/grpc").isPrefixOf data = true := by
  unfold MagicDetector.deep_detect
  rw [mem_sortByKeyDesc, List.mem_map]
  constructor
  · rintro ⟨s, hs, hinfo⟩
    have hmem := (List.mem_filter.mp hs).1
    have hcond := (List.mem_filter.mp hs).2
    have hmatch : s.matches data = true := by
      simpa [allowedByFilter] using hcond
    have hproto : s.protocol = .GRPC := by
      have := congrArg ProtocolInfo.protocol_type hinfo
      simpa [magicSigInfo, ProtocolInfo.new] using this
    have hs_eq : s = grpcMagicSig := by
      simp only [allSignatures, List.mem_cons, List.not_mem_nil, or_false] at hmem
      rcases hmem with h|h|h|h|h|h|h|h|h|h|h|h|h|h|h|h|h|h|h|h <;> subst h <;>
        first
          | rfl
          | exact absurd hproto (by decide)
    subst hs_eq
    exact (grpc_matches_iff data).mp hmatch
  · intro hp
    refine ⟨grpcMagicSig, ?_, rfl⟩
    rw [List.mem_filter]
    refine ⟨by decide, ?_⟩
    simp [allowedByFilter, (grpc_matches_iff data).mpr hp]

theorem claim_C7_witness :
    magicSigInfo grpcMagicSig
      ∈ MagicDetector.deep_detect none allSignatures (strBytes "application/grpc data") :=
  (claim_C7 (strBytes "application/grpc data")).mpr (by decide)

/-- Claim C6 counterexample: the ALPN parser's length precondition is not 5
bytes but the detector's 64-byte `min_data_size`: a 61-byte TLS Handshake
record (first byte 0x16) whose payload is a well-formed ClientHello with an
ALPN extension returns none, while the same record padded past 64 bytes
parses to the ALPN result with primary protocol HTTP/2 and confidence
0.95. -/
theorem claim_C6_cex :
    5 ≤ tlsAlpnShort.length ∧ tlsAlpnShort.length < 64
    ∧ bget tlsAlpnShort 0 = 22
    ∧ TlsAlpnDetector.detect_alpn 64 tlsAlpnShort = none
    ∧ TlsAlpnDetector.detect_alpn 64 tlsAlpnPadded
        = some ⟨[strBytes "h2"], some .HTTP2, mkRat 95 100⟩ := by
  decide

/-- Claim C6, amended: `detect_alpn` returns none for every buffer shorter
than the detector's 64-byte `min_data_size` and for every buffer whose
first byte is not the Handshake record type 0x16; a 64-byte-or-longer
handshake record with a well-formed ALPN ClientHello parses (witnessed by
the concrete padded record). -/
theorem claim_C6 (data : List Nat)
    (h : data.length < 64 ∨ data.head? ≠ some 22) :
    TlsAlpnDetector.detect_alpn 64 data = none ∧
      TlsAlpnDetector.detect_alpn 64 tlsAlpnPadded
        = some ⟨[strBytes "h2"], some .HTTP2, mkRat 95 100⟩ := by
  refine ⟨?_, by decide⟩
  unfold TlsAlpnDetector.detect_alpn
  rcases h with h | h
  · simp [h]
  · by_cases h64 : data.length < 64
    · simp [h64]
    · cases data with
      | nil => simp at h64
      | cons b t =>
        have hb : b ≠ 22 := by simpa using h
        have h5 : ¬ (b :: t).length < 5 := by
          simp only [List.length_cons] at h64 ⊢
          omega
        simp [h64, h5, bget, hb]

theorem claim_C6_witness :
    (tlsAlpnShort.length < 64 ∨ tlsAlpnShort.head? ≠ some 22) ∧
      (TlsAlpnDetector.detect_alpn 64 tlsAlpnShort = none ∧
        TlsAlpnDetector.detect_alpn 64 tlsAlpnPadded
          = some ⟨[strBytes "h2"], some .HTTP2, mkRat 95 100⟩) :=
  ⟨Or.inl (by decide), claim_C6 tlsAlpnShort (Or.inl (by decide))⟩

/-- Claim C8 counterexample: a buffer that begins with GET, contains the
WebSocket upgrade header, lacks the 101 status line, and on which no
recognizer exceeds confidence 0.90, can still be classified as gRPC: the
gRPC recognizer reaches 0.8 (content hit plus frame-position hit), is
bumped to 0.90, ties HTTP/1.x's 0.90 and wins because it is scanned first,
so the verdict is GRPC, not HTTP1_1. -/
theorem claim_C8_cex :
    (strBytes "GET ").isPrefixOf getUpgradeGrpcBuf = true
    ∧ fastSearch getUpgradeGrpcBuf (strBytes "Upgrade: websocket") = true
    ∧ fastSearch getUpgradeGrpcBuf (strBytes "HTTP/1.1 101") = false
    ∧ detect_http1 getUpgradeGrpcBuf = some (mkRat 9 10)
    ∧ detect_websocket getUpgradeGrpcBuf = some (mkRat 75 100)
    ∧ detect_http3 getUpgradeGrpcBuf = none
    ∧ detect_quic getUpgradeGrpcBuf = none
    ∧ detect_http2 getUpgradeGrpcBuf = none
    ∧ detect_tls getUpgradeGrpcBuf = none
    ∧ detect_ssh getUpgradeGrpcBuf = none
    ∧ detect_grpc getUpgradeGrpcBuf = some (mkRat 9 10)
    ∧ PassiveProbe.probe 16 (mkRat 7 10) getUpgradeGrpcBuf
        = some ⟨.GRPC, mkRat 9 10⟩
    ∧ ProtocolType.GRPC ≠ ProtocolType.HTTP1_1 :=
  ⟨by decide, by decide, by decide, by decide, by decide, by decide, by decide,
    by decide, by decide, by decide, by decide, by decide, by decide⟩

/-- Claim C8, amended: for every buffer that begins with GET, contains the
WebSocket upgrade header, lacks the 101 status line, and on which the gRPC
recognizer does not fire (the only other recognizer that can fire on such
a buffer, and it can only fire at exactly 0.90, tying HTTP/1.x and winning
by scan order), the passive probe registers HTTP/1.x at 0.90 and WebSocket
at 0.75 and returns the HTTP1_1 verdict. -/
theorem claim_C8 (data : List Nat)
    (h1 : (strBytes "GET ").isPrefixOf data = true)
    (h2 : fastSearch data (strBytes "Upgrade: websocket") = true)
    (h3 : fastSearch data (strBytes "HTTP/1.1 101") = false)
    (h4 : detect_grpc data = none) :
    detect_http1 data = some (mkRat 9 10) ∧
      detect_websocket data = some (mkRat 75 100) ∧
      PassiveProbe.probe 16 (mkRat 7 10) data = some ⟨.HTTP1_1, mkRat 9 10⟩ := by
  obtain ⟨rest, rfl⟩ := exists_rest_of_GET h1
  have hrest : 18 ≤ rest.length := length_ge_of_GET_upgrade h2
  have hlenc : (71 :: 69 :: 84 :: 32 :: rest).length = rest.length + 4 := by
    simp
  have e1 : detect_http1 (71 :: 69 :: 84 :: 32 :: rest) = some (mkRat 9 10) := by
    have h8 : ¬ (71 :: 69 :: 84 :: 32 :: rest).length < 8 := by
      rw [hlenc]; omega
    unfold detect_http1
    rw [if_neg h8, if_pos (by simp [h1])]
  have equic : detect_quic (71 :: 69 :: 84 :: 32 :: rest) = none := by
    have h16 : ¬ (71 :: 69 :: 84 :: 32 :: rest).length < 16 := by
      rw [hlenc]; omega
    have hb : bit7 (bget (71 :: 69 :: 84 :: 32 :: rest) 0) = false := by
      have h0 : bget (71 :: 69 :: 84 :: 32 :: rest) 0 = 71 := rfl
      rw [h0]
      decide
    unfold detect_quic
    rw [if_neg h16, if_neg (by simp [hb])]
  have eh3 : detect_http3 (71 :: 69 :: 84 :: 32 :: rest) = none := by
    unfold detect_http3
    rw [equic]
  have ehttp2 : detect_http2 (71 :: 69 :: 84 :: 32 :: rest) = none := by
    by_cases h24 : (71 :: 69 :: 84 :: 32 :: rest).length < 24
    · unfold detect_http2
      rw [if_pos h24]
    · have hpre : http2Preface.isPrefixOf (71 :: 69 :: 84 :: 32 :: rest) = false := rfl
      have hb3 : bget (71 :: 69 :: 84 :: 32 :: rest) 3 = 32 := rfl
      unfold detect_http2
      rw [if_neg h24, if_neg (by simp [hpre]),
        if_pos (show 9 ≤ (71 :: 69 :: 84 :: 32 :: rest).length by rw [hlenc]; omega),
        if_neg (by simp [hb3])]
  have etls : detect_tls (71 :: 69 :: 84 :: 32 :: rest) = none := by
    have h5 : ¬ (71 :: 69 :: 84 :: 32 :: rest).length < 5 := by
      rw [hlenc]; omega
    have hb0 : bget (71 :: 69 :: 84 :: 32 :: rest) 0 = 71 := rfl
    unfold detect_tls
    rw [if_neg h5, if_neg (by simp [hb0])]
  have essh : detect_ssh (71 :: 69 :: 84 :: 32 :: rest) = none := by
    have hlt4 : ¬ (71 :: 69 :: 84 :: 32 :: rest).length < 4 := by
      rw [hlenc]; omega
    have hs1 : (strBytes "SSH-2.0").isPrefixOf (71 :: 69 :: 84 :: 32 :: rest) = false := rfl
    have hs2 : (strBytes "SSH-1.").isPrefixOf (71 :: 69 :: 84 :: 32 :: rest) = false := rfl
    have hs3 : (strBytes "SSH-").isPrefixOf (71 :: 69 :: 84 :: 32 :: rest) = false := rfl
    have hu : u32be (bget (71 :: 69 :: 84 :: 32 :: rest) 0)
        (bget (71 :: 69 :: 84 :: 32 :: rest) 1) (bget (71 :: 69 :: 84 :: 32 :: rest) 2)
        (bget (71 :: 69 :: 84 :: 32 :: rest) 3) = 1195725856 := by
      have h0 : bget (71 :: 69 :: 84 :: 32 :: rest) 0 = 71 := rfl
      have ha : bget (71 :: 69 :: 84 :: 32 :: rest) 1 = 69 := rfl
      have hbb : bget (71 :: 69 :: 84 :: 32 :: rest) 2 = 84 := rfl
      have hc : bget (71 :: 69 :: 84 :: 32 :: rest) 3 = 32 := rfl
      rw [h0, ha, hbb, hc]
      decide
    unfold detect_ssh
    rw [if_neg hlt4, if_neg (by simp [hs1]), if_neg (by simp [hs2]),
      if_neg (by simp [hs3]),
      if_pos (show 6 ≤ (71 :: 69 :: 84 :: 32 :: rest).length by rw [hlenc]; omega),
      if_neg (by simp [hu])]
  have ews : detect_websocket (71 :: 69 :: 84 :: 32 :: rest) = some (mkRat 75 100) := by
    have h20 : ¬ (71 :: 69 :: 84 :: 32 :: rest).length < 20 := by
      rw [hlenc]; omega
    have hget' : fastSearch (71 :: 69 :: 84 :: 32 :: rest) (strBytes "GET ") = true :=
      fastSearch_of_isPrefixOf rfl h1
    unfold detect_websocket
    rw [if_neg h20, if_pos (show wsIsHttpLike (71 :: 69 :: 84 :: 32 :: rest) = true by
        simp [wsIsHttpLike, hget']),
      if_pos (by simp [h2]), if_neg (by simp [h3])]
  refine ⟨e1, ews, ?_⟩
  have edet : passiveDetections (71 :: 69 :: 84 :: 32 :: rest)
      = [(.HTTP1_1, mkRat 9 10), (.WebSocket, mkRat 75 100)] := by
    simp [passiveDetections, eh3, equic, ehttp2, h4, e1, etls, essh, ews, mkDet]
  have h16 : ¬ (71 :: 69 :: 84 :: 32 :: rest).length < 16 := by
    rw [hlenc]; omega
  unfold PassiveProbe.probe
  rw [if_neg h16, edet]
  decide

theorem claim_C8_witness :
    detect_http1 (strBytes "GET /chat HTTP/1.1\r\nUpgrade: websocket\r\n\r\n")
        = some (mkRat 9 10) ∧
      detect_websocket (strBytes "GET /chat HTTP/1.1\r\nUpgrade: websocket\r\n\r\n")
        = some (mkRat 75 100) ∧
      PassiveProbe.probe 16 (mkRat 7 10)
          (strBytes "GET /chat HTTP/1.1\r\nUpgrade: websocket\r\n\r\n")
        = some ⟨.HTTP1_1, mkRat 9 10⟩ :=
  claim_C8 (strBytes "GET /chat HTTP/1.1\r\nUpgrade: websocket\r\n\r\n")
    (by decide) (by decide) (by decide) (by decide)

end PsiDetector
